import Mathlib

/-!
Shallow embedding of the WebRTC signaling server in src/index.js
(the live first segment of the file, lines 1-507).

JS `Map`s and plain objects used as dictionaries are modelled as
association lists in insertion order: `set` on an existing key updates the
entry in place, `set` on a fresh key appends, `delete` removes the entry,
and iteration (`entries`, `values`, `Object.entries`, `Object.values`)
walks the list in order, exactly as JS Maps and string-keyed objects do.

Sockets are modelled by their numeric ids.  The mutable `socket.userId`
field assigned in the register handler is modelled by the `sockUser` map.
`socket.emit(event, data)` is modelled by appending `(socketId, event)` to
the emission list a handler returns.  `Date.now()` is passed in as `now`.
-/

def alGet {K V : Type} [DecidableEq K] : List (K × V) → K → Option V
  | [], _ => none
  | (k, v) :: rest, key => if k = key then some v else alGet rest key

def alSet {K V : Type} [DecidableEq K] : List (K × V) → K → V → List (K × V)
  | [], key, val => [(key, val)]
  | (k, v) :: rest, key, val =>
      if k = key then (k, val) :: rest else (k, v) :: alSet rest key val

def alDel {K V : Type} [DecidableEq K] : List (K × V) → K → List (K × V)
  | [], _ => []
  | (k, v) :: rest, key =>
      if k = key then alDel rest key else (k, v) :: alDel rest key

theorem alGet_alSet_self {K V : Type} [DecidableEq K]
    (l : List (K × V)) (k : K) (v : V) : alGet (alSet l k v) k = some v := by
  induction l with
  | nil => simp [alGet, alSet]
  | cons p rest ih =>
      by_cases h : p.1 = k
      · simp [alSet, alGet, h]
      · simp [alSet, alGet, h, ih]

theorem alGet_alSet_ne {K V : Type} [DecidableEq K]
    (l : List (K × V)) (k k' : K) (v : V) (h : k ≠ k') :
    alGet (alSet l k v) k' = alGet l k' := by
  induction l with
  | nil => simp [alGet, alSet, h]
  | cons p rest ih =>
      by_cases hp : p.1 = k
      · simp [alSet, alGet, hp, h]
      · simp [alSet, alGet, hp, ih]

theorem alGet_alDel_self {K V : Type} [DecidableEq K]
    (l : List (K × V)) (k : K) : alGet (alDel l k) k = none := by
  induction l with
  | nil => simp [alGet, alDel]
  | cons p rest ih =>
      by_cases hp : p.1 = k
      · simp [alDel, hp, ih]
      · simp [alDel, alGet, hp, ih]

/-- Presence Table entry: `userStatus.set(userId, { status, currentCallId })`. -/
structure PresenceEntry where
  status : String
  currentCallId : Option String
deriving DecidableEq, Repr

/-- One entry of a call state's `iceCandidates[to]` buffer:
`{ from, candidate, timestamp }`. -/
structure IceEntry where
  fromU : String
  candidate : String
  timestamp : Nat
deriving DecidableEq, Repr

/-- The payload of `call_initiate`
(`{ callId, callerId, receiverIds, callType, extraMeta }`). -/
structure CallInitData where
  callId : String
  callerId : String
  receiverIds : List String
  callType : String
  extraMeta : String
deriving DecidableEq, Repr

/-- A record of the `activeCalls` map, as created by the `call_initiate`
handler.  `participantSockets` maps user ids to socket ids. -/
structure Call where
  callId : String
  callerId : String
  receiverIds : List String
  callType : String
  participants : List String
  participantSockets : List (String × Nat)
  status : String
  extraMeta : String
deriving DecidableEq, Repr

/-- A record of the `callStates` map (the enhanced call state machine). -/
structure CallState where
  status : String
  callerId : String
  receiverId : String
  offerAttempts : Nat
  lastOfferTime : Nat
  iceCandidates : List (String × List IceEntry)
deriving DecidableEq, Repr

/-- Data captured by the closure of the 60 s no-answer timer armed in
`call_initiate`: the caller socket and both user ids. -/
structure TimerInfo where
  callerSock : Nat
  callerId : String
  receiverId : String
deriving DecidableEq, Repr

/-- Outbound events (`socket.emit(name, data)`).  The `iceCandidate`
constructor carries an optional `to` field because the queued variant at
the bottom of the ice handler includes `to` in the payload while the
forwarded variant and the unknown-call queued variant do not. -/
inductive Evt where
  | error (message : String)
  | forceDisconnect (message : String)
  | registered (success : Bool)
  | incomingCall (data : CallInitData)
  | callRinging (callId receiverId : String)
  | callBusy (callId receiverId : String)
  | callAccepted (callId receiverId : String)
  | callRejected (callId userId : String)
  | callTimeout (callId reason : String)
  | callEnded (callId userId reason : String)
  | startSignaling (callId : String)
  | webrtcOffer (callId fromU sdp : String)
  | webrtcAnswer (callId fromU sdp : String)
  | iceCandidate (callId fromU : String) (toU : Option String) (candidate : String)
deriving DecidableEq, Repr

/-- The five in-memory tables of the server plus the modelled
`socket.userId` assignments. -/
structure ServerState where
  connectedUsers : List (String × Nat)
  sockUser : List (Nat × String)
  activeCalls : List (String × Call)
  pendingSignals : List (String × List Evt)
  userStatus : List (String × PresenceEntry)
  callTimeouts : List (String × TimerInfo)
  callStates : List (String × CallState)
deriving DecidableEq, Repr

def initState : ServerState :=
  ⟨[], [], [], [], [], [], []⟩

/-- `getUserStatus`: read the presence entry, defaulting to
`{ status: 'available', currentCallId: null }`. -/
def getUserStatus (st : ServerState) (userId : String) : PresenceEntry :=
  (alGet st.userStatus userId).getD ⟨"available", none⟩

/-- `setUserStatus(userId, status, currentCallId = null)`. -/
def setUserStatus (st : ServerState) (userId : String) (status : String)
    (currentCallId : Option String) : ServerState :=
  {st with userStatus := alSet st.userStatus userId ⟨status, currentCallId⟩}

/-- `queueSignal(userId, event, data)`: append to the per-user pending
mailbox, creating it lazily. -/
def queueSignal (st : ServerState) (userId : String) (e : Evt) : ServerState :=
  let q := (alGet st.pendingSignals userId).getD [] ++ [e]
  {st with pendingSignals := alSet st.pendingSignals userId q}

/-- `deliverPendingSignals(userId, socket)`: emit every queued event to the
socket in insertion order, then delete the queue. -/
def deliverPendingSignals (st : ServerState) (userId : String) (sock : Nat) :
    ServerState × List (Nat × Evt) :=
  match alGet st.pendingSignals userId with
  | none => (st, [])
  | some q =>
      ({st with pendingSignals := alDel st.pendingSignals userId},
       q.map (fun e => (sock, e)))

/-- The `disconnect` handler.  It deletes the user directory entry for the
closing socket's bound user id unconditionally, then walks `activeCalls`
in order: for each call containing the user it removes the user from
`participants` and `participantSockets`, emits `call_ended` with reason
"Participant disconnected" to the remaining bound sockets, sets the user
`offline`, and deletes the call (and its call state) when no participants
remain. -/
def onDisconnect (st : ServerState) (sock : Nat) : ServerState × List (Nat × Evt) :=
  let userId := (alGet st.sockUser sock).getD "unknown"
  let st0 := {st with connectedUsers := alDel st.connectedUsers userId}
  let res := st0.activeCalls.foldl
    (fun (acc : List (String × Call) × List (String × CallState) ×
          List (String × PresenceEntry) × List (Nat × Evt)) p =>
      let calls := acc.1
      let states := acc.2.1
      let ustat := acc.2.2.1
      let ems := acc.2.2.2
      let cid := p.1
      let call := p.2
      if userId ∈ call.participants then
        let parts := call.participants.filter (fun i => i ≠ userId)
        let socks := alDel call.participantSockets userId
        let ems' := ems ++ socks.map
          (fun q => (q.2, Evt.callEnded cid userId "Participant disconnected"))
        let ustat' := alSet ustat userId ⟨"offline", none⟩
        if parts.isEmpty then (calls, alDel states cid, ustat', ems')
        else
          (calls ++ [(cid, {call with participants := parts, participantSockets := socks})],
           states, ustat', ems')
      else (calls ++ [(cid, call)], states, ustat, ems))
    ([], st0.callStates, st0.userStatus, [])
  ({st0 with activeCalls := res.1, callStates := res.2.1, userStatus := res.2.2.1},
   res.2.2.2)

/-- The `register` handler.  When a different socket is currently bound to
the user id, the old socket is sent `force_disconnect` and disconnected:
in socket.io, server-side `socket.disconnect()` fires the `disconnect`
handler synchronously, which is modelled by invoking `onDisconnect` on the
old socket.  The handler then installs the new channel, unconditionally
sets presence to `available` (with `currentCallId` null), emits
`registered`, adds the socket to the `participantSockets` of every active
call that lists the user as a participant and lacks a socket for them, and
drains the pending signal queue. -/
def onRegister (st : ServerState) (sock : Nat) (userId : String) :
    ServerState × List (Nat × Evt) :=
  if userId = "" then (st, [(sock, Evt.error "Invalid user ID")])
  else
    let step1 : ServerState × List (Nat × Evt) :=
      match alGet st.connectedUsers userId with
      | some old =>
          if old ≠ sock then
            let d := onDisconnect st old
            (d.1, (old, Evt.forceDisconnect "New connection established") :: d.2)
          else (st, [])
      | none => (st, [])
    let st1 := step1.1
    let st2 := {st1 with
      connectedUsers := alSet st1.connectedUsers userId sock,
      sockUser := alSet st1.sockUser sock userId,
      userStatus := alSet st1.userStatus userId ⟨"available", none⟩}
    let st3 := {st2 with activeCalls := st2.activeCalls.map (fun p =>
      if userId ∈ p.2.participants ∧ alGet p.2.participantSockets userId = none
      then (p.1, {p.2 with participantSockets := alSet p.2.participantSockets userId sock})
      else p)}
    let del := deliverPendingSignals st3 userId sock
    (del.1, step1.2 ++ [(sock, Evt.registered true)] ++ del.2)

/-- The `user_status` handler:
`if (userId && socket.userId === userId) setUserStatus(userId, status)`.
The status string is stored verbatim and `currentCallId` is always reset
to null (the `setUserStatus` default). -/
def onUserStatus (st : ServerState) (sock : Nat) (userId status : String) :
    ServerState × List (Nat × Evt) :=
  if userId ≠ "" ∧ alGet st.sockUser sock = some userId then
    (setUserStatus st userId status none, [])
  else (st, [])

/-- The `call_initiate` handler. -/
def onCallInitiate (st : ServerState) (sock : Nat) (now : Nat) (d : CallInitData) :
    ServerState × List (Nat × Evt) :=
  if d.callId = "" ∨ d.callerId = "" ∨ d.receiverIds.isEmpty then
    (st, [(sock, Evt.error "Invalid call data")])
  else
    match alGet st.connectedUsers d.callerId with
    | none => (st, [(sock, Evt.error "Caller not connected")])
    | some callerSocket =>
      let receiverId := d.receiverIds.headD ""
      if (getUserStatus st receiverId).status = "busy" then
        (st, [(callerSocket, Evt.callBusy d.callId receiverId)])
      else
        let call : Call :=
          ⟨d.callId, d.callerId, d.receiverIds, d.callType,
           [d.callerId, receiverId], [(d.callerId, callerSocket)], "initiated",
           d.extraMeta⟩
        let cs : CallState :=
          ⟨"initiated", d.callerId, receiverId, 0, now,
           alSet (alSet [] d.callerId []) receiverId []⟩
        let st1 := {st with
          activeCalls := alSet (alDel st.activeCalls d.callId) d.callId call,
          callStates := alSet st.callStates d.callId cs,
          userStatus := alSet st.userStatus d.callerId ⟨"busy", some d.callId⟩,
          callTimeouts := alSet (alDel st.callTimeouts d.callId) d.callId
            ⟨callerSocket, d.callerId, receiverId⟩}
        match alGet st.connectedUsers receiverId with
        | some receiverSocket =>
            (setUserStatus st1 receiverId "ringing" (some d.callId),
             [(receiverSocket, Evt.incomingCall d),
              (callerSocket, Evt.callRinging d.callId receiverId)])
        | none => (queueSignal st1 receiverId (Evt.incomingCall d), [])

/-- The `call_accept` handler.  Note that it performs no check on the
call's current status: it always clears the no-answer timer, rebinds the
receiver's socket, forces the status to `active`, sets both presences to
`in-call`, and emits `call_accepted` to every bound participant other than
the receiver followed by `start_signaling` to every bound participant. -/
def onCallAccept (st : ServerState) (sock : Nat) (callId receiverId : String) :
    ServerState × List (Nat × Evt) :=
  match alGet st.activeCalls callId with
  | none => (st, [(sock, Evt.error "Call not found")])
  | some call =>
    match alGet st.connectedUsers receiverId with
    | none => (st, [(sock, Evt.error "Receiver not connected")])
    | some receiverSocket =>
      if receiverId ∈ call.participants then
        let call' := {call with
          participantSockets := alSet call.participantSockets receiverId receiverSocket,
          status := "active"}
        let states' := match alGet st.callStates callId with
          | some cs => alSet st.callStates callId {cs with status := "active"}
          | none => st.callStates
        let st1 := {st with
          callTimeouts := alDel st.callTimeouts callId,
          activeCalls := alSet st.activeCalls callId call',
          userStatus := alSet (alSet st.userStatus receiverId ⟨"in-call", some callId⟩)
            call.callerId ⟨"in-call", some callId⟩,
          callStates := states'}
        let accEms := (call'.participantSockets.filter (fun p => p.1 ≠ receiverId)).map
          (fun p => (p.2, Evt.callAccepted callId receiverId))
        let startEms := call'.participantSockets.map
          (fun p => (p.2, Evt.startSignaling callId))
        (st1, accEms ++ startEms)
      else (st, [(sock, Evt.error "Invalid receiver")])

/-- The `call_reject` handler. -/
def onCallReject (st : ServerState) (callId userId : String) :
    ServerState × List (Nat × Evt) :=
  match alGet st.activeCalls callId with
  | none => (st, [])
  | some call =>
    let st1 := {st with
      callTimeouts := alDel st.callTimeouts callId,
      userStatus := alSet (alSet st.userStatus call.callerId ⟨"available", none⟩)
        userId ⟨"available", none⟩}
    let ems := match alGet st.connectedUsers call.callerId with
      | some k => [(k, Evt.callRejected callId userId)]
      | none => []
    ({st1 with activeCalls := alDel st1.activeCalls callId,
               callStates := alDel st1.callStates callId}, ems)

/-- The `webrtc_offer` handler.  When the call or its call state is
missing the offer is queued for `to` (even when `from == to`).  Otherwise
the offer bookkeeping (`offerAttempts`, `lastOfferTime`) is updated first,
then the loopback guard drops `from == to`, then the target channel is
resolved from the call's cached sockets with fallback to the user
directory, validated against the target's bound user id, and the offer is
forwarded or queued. -/
def onWebrtcOffer (st : ServerState) (now : Nat) (callId fromU toU sdp : String) :
    ServerState × List (Nat × Evt) :=
  match alGet st.activeCalls callId, alGet st.callStates callId with
  | some call, some cs =>
    let cs1 := {cs with offerAttempts := cs.offerAttempts + 1, lastOfferTime := now}
    let st1 := {st with callStates := alSet st.callStates callId cs1}
    if fromU = toU then (st1, [])
    else
      let target := match alGet call.participantSockets toU with
        | some s => some s
        | none => alGet st.connectedUsers toU
      match target with
      | some t =>
          if alGet st.sockUser t = some toU then
            (st1, [(t, Evt.webrtcOffer callId fromU sdp)])
          else (queueSignal st1 toU (Evt.webrtcOffer callId fromU sdp), [])
      | none => (queueSignal st1 toU (Evt.webrtcOffer callId fromU sdp), [])
  | _, _ => (queueSignal st toU (Evt.webrtcOffer callId fromU sdp), [])

/-- The `webrtc_answer` handler.  Unlike the offer handler it has no
loopback guard: it resets `offerAttempts` and routes the answer even when
`from == to`. -/
def onWebrtcAnswer (st : ServerState) (_now : Nat) (callId fromU toU sdp : String) :
    ServerState × List (Nat × Evt) :=
  match alGet st.activeCalls callId, alGet st.callStates callId with
  | some call, some cs =>
    let cs1 := {cs with offerAttempts := 0}
    let st1 := {st with callStates := alSet st.callStates callId cs1}
    let target := match alGet call.participantSockets toU with
      | some s => some s
      | none => alGet st.connectedUsers toU
    match target with
    | some t =>
        if alGet st.sockUser t = some toU then
          (st1, [(t, Evt.webrtcAnswer callId fromU sdp)])
        else (queueSignal st1 toU (Evt.webrtcAnswer callId fromU sdp), [])
    | none => (queueSignal st1 toU (Evt.webrtcAnswer callId fromU sdp), [])
  | _, _ => (queueSignal st toU (Evt.webrtcAnswer callId fromU sdp), [])

/-- The `ice_candidate` handler.  No loopback guard either.  When the call
exists the candidate is appended to `iceCandidates[to]` whenever that
buffer key exists; the queued payload of a known call includes the `to`
field while the unknown-call queued payload does not (lines 332 and 347 of
the source). -/
def onIceCandidate (st : ServerState) (now : Nat) (callId fromU toU candidate : String) :
    ServerState × List (Nat × Evt) :=
  match alGet st.activeCalls callId, alGet st.callStates callId with
  | some call, some cs =>
    let cs' := match alGet cs.iceCandidates toU with
      | some lst =>
          let buf := alSet cs.iceCandidates toU (lst ++ [⟨fromU, candidate, now⟩])
          {cs with iceCandidates := buf}
      | none => cs
    let st1 := {st with callStates := alSet st.callStates callId cs'}
    let target := match alGet call.participantSockets toU with
      | some s => some s
      | none => alGet st.connectedUsers toU
    match target with
    | some t =>
        if alGet st.sockUser t = some toU then
          (st1, [(t, Evt.iceCandidate callId fromU none candidate)])
        else (queueSignal st1 toU (Evt.iceCandidate callId fromU (some toU) candidate), [])
    | none => (queueSignal st1 toU (Evt.iceCandidate callId fromU (some toU) candidate), [])
  | _, _ => (queueSignal st toU (Evt.iceCandidate callId fromU none candidate), [])

/-- The `call_end` handler.  It resets only the ending user's presence,
emits `call_ended` with reason "User ended the call" to every other bound
participant, removes the user from the record, and deletes the record only
when no participants remain. -/
def onCallEnd (st : ServerState) (callId userId : String) :
    ServerState × List (Nat × Evt) :=
  if userId = "" then (st, [])
  else
    match alGet st.activeCalls callId with
    | none => (st, [])
    | some call =>
      let st1 := {st with
        callTimeouts := alDel st.callTimeouts callId,
        userStatus := alSet st.userStatus userId ⟨"available", none⟩}
      let ems := (call.participantSockets.filter (fun p => p.1 ≠ userId)).map
        (fun p => (p.2, Evt.callEnded callId userId "User ended the call"))
      let parts := call.participants.filter (fun i => i ≠ userId)
      let socks := alDel call.participantSockets userId
      let call2 := {call with participants := parts, participantSockets := socks}
      if parts.isEmpty then
        ({st1 with activeCalls := alDel st1.activeCalls callId,
                   callStates := alDel st1.callStates callId}, ems)
      else
        ({st1 with activeCalls := alSet st1.activeCalls callId call2}, ems)

/-- The `user_ready` handler: rebind the user's socket from the directory
when available, and when every participant has a bound socket broadcast
`start_signaling` to all bound sockets.  It performs no status check, so
it also fires on calls still in `initiated` status. -/
def onUserReady (st : ServerState) (callId userId : String) :
    ServerState × List (Nat × Evt) :=
  match alGet st.activeCalls callId with
  | none => (st, [])
  | some call =>
    let call1 := match alGet st.connectedUsers userId with
      | some s => {call with participantSockets := alSet call.participantSockets userId s}
      | none => call
    let st1 := {st with activeCalls := alSet st.activeCalls callId call1}
    if call1.participants.all (fun pid => (alGet call1.participantSockets pid).isSome) then
      (st1, call1.participantSockets.map (fun p => (p.2, Evt.startSignaling callId)))
    else (st1, [])

/-- Firing of the 60 s no-answer timer armed by `call_initiate`.  The
timer callback captured the caller socket and both user ids; it runs only
when the call still exists with status `initiated`. -/
def fireCallTimeout (st : ServerState) (callId : String) :
    ServerState × List (Nat × Evt) :=
  match alGet st.callTimeouts callId with
  | none => (st, [])
  | some ti =>
    let st0 := {st with callTimeouts := alDel st.callTimeouts callId}
    match alGet st0.activeCalls callId with
    | some call =>
        if call.status = "initiated" then
          let ems := (ti.callerSock, Evt.callTimeout callId "No answer") ::
            call.participantSockets.map
              (fun p => (p.2, Evt.callEnded callId "system" "Timeout"))
          ({st0 with activeCalls := alDel st0.activeCalls callId,
                     callStates := alDel st0.callStates callId,
                     userStatus := alSet (alSet st0.userStatus ti.callerId
                       ⟨"available", none⟩) ti.receiverId ⟨"available", none⟩}, ems)
        else (st0, [])
    | none => (st0, [])

/-- One tick of the 5 s sweeper (`setInterval` at the bottom of the
source).  For each call state with status `initiated`, positive
`offerAttempts` and `now - lastOfferTime > 10000` it emits `call_timeout`
with reason "No answer from receiver" to the caller when connected,
deletes the call record and the call state, and resets caller and
receiver presence to `available`; no `call_ended` is emitted.  Every
other call state has ICE buffer entries older than 60 s dropped. -/
def sweeperTick (st : ServerState) (now : Nat) : ServerState × List (Nat × Evt) :=
  let res := st.callStates.foldl
    (fun (acc : List (String × Call) × List (String × CallState) ×
          List (String × PresenceEntry) × List (Nat × Evt)) p =>
      let calls := acc.1
      let states := acc.2.1
      let ustat := acc.2.2.1
      let ems := acc.2.2.2
      let cid := p.1
      let cs := p.2
      if cs.status = "initiated" ∧ cs.offerAttempts > 0 ∧ now - cs.lastOfferTime > 10000 then
        let ems' := match alGet st.connectedUsers cs.callerId with
          | some k => ems ++ [(k, Evt.callTimeout cid "No answer from receiver")]
          | none => ems
        (alDel calls cid,
         states,
         alSet (alSet ustat cs.callerId ⟨"available", none⟩) cs.receiverId
           ⟨"available", none⟩,
         ems')
      else
        let ice := cs.iceCandidates.map
          (fun q => (q.1, q.2.filter (fun e => now - e.timestamp < 60000)))
        let cs' := {cs with iceCandidates := ice}
        (calls, states ++ [(cid, cs')], ustat, ems))
    (st.activeCalls, [], st.userStatus, [])
  ({st with activeCalls := res.1, callStates := res.2.1, userStatus := res.2.2.1},
   res.2.2.2)

/-- Inbound events of the system, used to build reachable states. -/
inductive Event where
  | register (sock : Nat) (userId : String)
  | userStatusMsg (sock : Nat) (userId status : String)
  | callInitiate (sock : Nat) (now : Nat) (d : CallInitData)
  | callAccept (sock : Nat) (callId receiverId : String)
  | callReject (callId userId : String)
  | callEnd (callId userId : String)
  | userReady (callId userId : String)
  | webrtcOffer (now : Nat) (callId fromU toU sdp : String)
  | webrtcAnswer (now : Nat) (callId fromU toU sdp : String)
  | iceCandidate (now : Nat) (callId fromU toU candidate : String)
  | disconnect (sock : Nat)
  | timerFire (callId : String)
  | sweep (now : Nat)
deriving DecidableEq, Repr

/-- Dispatch one inbound event to its handler. -/
def stepEvent (st : ServerState) : Event → ServerState × List (Nat × Evt)
  | .register sock userId => onRegister st sock userId
  | .userStatusMsg sock userId status => onUserStatus st sock userId status
  | .callInitiate sock now d => onCallInitiate st sock now d
  | .callAccept sock callId receiverId => onCallAccept st sock callId receiverId
  | .callReject callId userId => onCallReject st callId userId
  | .callEnd callId userId => onCallEnd st callId userId
  | .userReady callId userId => onUserReady st callId userId
  | .webrtcOffer now callId fromU toU sdp => onWebrtcOffer st now callId fromU toU sdp
  | .webrtcAnswer now callId fromU toU sdp => onWebrtcAnswer st now callId fromU toU sdp
  | .iceCandidate now callId fromU toU candidate =>
      onIceCandidate st now callId fromU toU candidate
  | .disconnect sock => onDisconnect st sock
  | .timerFire callId => fireCallTimeout st callId
  | .sweep now => sweeperTick st now

/-- Run a list of events, returning the final state. -/
def runState (st : ServerState) : List Event → ServerState
  | [] => st
  | e :: rest => runState (stepEvent st e).1 rest

/-- Run a list of events, returning the final state and every emission in
order. -/
def runAcc (st : ServerState) : List Event → ServerState × List (Nat × Evt)
  | [] => (st, [])
  | e :: rest =>
      let r := stepEvent st e
      let r' := runAcc r.1 rest
      (r'.1, r.2 ++ r'.2)

def isCallBusy : Evt → Bool
  | .callBusy _ _ => true
  | _ => false

def isCallEnded : Evt → Bool
  | .callEnded _ _ _ => true
  | _ => false

def isCallAccepted : Evt → Bool
  | .callAccepted _ _ => true
  | _ => false

def isStartSignaling : Evt → Bool
  | .startSignaling _ => true
  | _ => false

/-- `deliverPendingSignals` never touches the presence table. -/
theorem deliverPendingSignals_userStatus (st : ServerState) (u : String) (k : Nat) :
    (deliverPendingSignals st u k).1.userStatus = st.userStatus := by
  unfold deliverPendingSignals
  split <;> rfl

/-- `call_initiate{c1,A,[B],audio}`. -/
def dAB : CallInitData := ⟨"c1", "A", ["B"], "audio", ""⟩

/-- `call_initiate{c2,C,[B],audio}`. -/
def dCB : CallInitData := ⟨"c2", "C", ["B"], "audio", ""⟩

/-- A (socket 1) and B (socket 2) registered. -/
def stAB : ServerState := runState initState [.register 1 "A", .register 2 "B"]

/-- A and B registered, A has initiated call c1 to B: A is busy(c1), B is
ringing(c1), the c1 record is `initiated` with only A's socket bound. -/
def stRinging : ServerState := runState stAB [.callInitiate 1 0 dAB]

/-- As `stRinging`, after B accepted: c1 `active`, both sockets bound,
both users in-call(c1). -/
def stActive : ServerState := runState stRinging [.callAccept 2 "c1" "B"]

/-- As `stActive`, with a third user C registered on socket 3. -/
def stActiveC : ServerState := runState stActive [.register 3 "C"]

/-- As `stRinging`, after A sent one `webrtc_offer` at time 0 and B sent
`user_ready` (binding B's socket while the call is still `initiated`):
the c1 call state has `offerAttempts = 1`, `lastOfferTime = 0`. -/
def stOfferStall : ServerState :=
  runState stRinging [.webrtcOffer 0 "c1" "A" "B" "sdp", .userReady "c1" "B"]

/-- A directory state in which user U is bound to socket 2 while socket 1
also carries `socket.userId = U` (socket 1 is the stale channel). -/
def stTwoSockets : ServerState := ⟨[("U", 2)], [(1, "U"), (2, "U")], [], [], [], [], []⟩

/-- A registered on socket 1 while marked `in-call` on live call c0 in
which A is a participant. -/
def stInCallA : ServerState :=
  ⟨[("A", 1)], [(1, "A")],
   [("c0", ⟨"c0", "A", ["B"], "audio", ["A", "B"], [("A", 1)], "active", ""⟩)],
   [], [("A", ⟨"in-call", some "c0"⟩)], [], []⟩

/-- The trace of C8's counterexample: A calls B and B sends `user_ready`
without ever accepting. -/
def readyTrace : List Event :=
  [.register 1 "A", .register 2 "B", .callInitiate 1 0 dAB, .userReady "c1" "B"]

/-- C1 counterexample.  In `stRinging`, user B is `ringing` on the live
call c1 in which B is a participant; yet handling a `register` event for B
(on the very socket already bound to B) resets B's presence to
`available` with `current_call_id` cleared, contradicting the claim that
presence is retained for a user in a live call. -/
theorem C1_counterexample :
    alGet stRinging.userStatus "B" = some ⟨"ringing", some "c1"⟩
    ∧ (alGet stRinging.activeCalls "c1").map Call.participants = some ["A", "B"]
    ∧ alGet ((onRegister stRinging 2 "B").1).userStatus "B" = some ⟨"available", none⟩ := by
  refine ⟨rfl, rfl, rfl⟩

/-- C1 (amended): handling `register` for a valid user id always resets
the user's presence to `available` with `current_call_id` cleared, even
when the user is in `ringing`/`in-call` presence on a still-live call;
the live-call case only adds the new socket to the call's
`participantSockets` when no socket is cached and flushes pending
signals, it never preserves presence. -/
theorem C1_register_resets_presence (st : ServerState) (sock : Nat) (userId : String)
    (h : userId ≠ "") :
    alGet ((onRegister st sock userId).1).userStatus userId = some ⟨"available", none⟩ := by
  unfold onRegister
  rw [if_neg h]
  simp only [deliverPendingSignals_userStatus]
  exact alGet_alSet_self _ _ _

/-- C1 witness: the amended statement at the concrete ringing state. -/
theorem C1_register_resets_presence_witness :
    alGet ((onRegister stRinging 2 "B").1).userStatus "B" = some ⟨"available", none⟩ :=
  C1_register_resets_presence stRinging 2 "B" (by decide)

/-- C7 counterexample.  In `stTwoSockets` the directory binds user U to
socket 2, while socket 1 also carries bound user id U; when socket 1
closes, the handler removes the directory entry for U anyway, so the
newer binding to socket 2 is not left intact. -/
theorem C7_counterexample :
    alGet stTwoSockets.connectedUsers "U" = some 2
    ∧ alGet stTwoSockets.sockUser 1 = some "U"
    ∧ alGet ((onDisconnect stTwoSockets 1).1).connectedUsers "U" = none := by
  refine ⟨rfl, rfl, rfl⟩

/-- C7 (amended): on channel close the `user_id → channel` mapping for the
closing channel's bound user id is removed unconditionally; the handler
never compares the mapped channel with the closing one, so a newer
binding for the same user id is removed as well. -/
theorem C7_unbind_unconditional (st : ServerState) (sock : Nat) (u : String)
    (h : alGet st.sockUser sock = some u) :
    alGet ((onDisconnect st sock).1).connectedUsers u = none := by
  unfold onDisconnect
  rw [h]
  exact alGet_alDel_self _ _

/-- C7 witness: the amended statement at the concrete two-socket state. -/
theorem C7_unbind_unconditional_witness :
    alGet ((onDisconnect stTwoSockets 1).1).connectedUsers "U" = none :=
  C7_unbind_unconditional stTwoSockets 1 "U" (by decide)

/-- C9 counterexample.  The state reached by the two-event trace
`register{A}; user_status{A,"in-call"}` has A's presence status `in-call`
with `current_call_id` null and an empty call registry, so the claimed
invariant fails in a reachable state. -/
theorem C9_counterexample :
    alGet (runState initState [.register 1 "A", .userStatusMsg 1 "A" "in-call"]).userStatus "A"
      = some ⟨"in-call", none⟩
    ∧ (runState initState [.register 1 "A", .userStatusMsg 1 "A" "in-call"]).activeCalls = [] := by
  refine ⟨rfl, rfl⟩

/-- C9 (amended): the presence/registry link holds right after the
transitions that establish it — after a `call_initiate` whose receiver is
online, the receiver's presence is `ringing` naming the newly created
live call in which the receiver is a participant — but it is not an
invariant of all reachable states (`user_status` alone breaks it). -/
theorem C9_initiate_links_receiver (st : ServerState) (sock now : Nat) (d : CallInitData)
    (r : String) (rs : List String) (csk rsk : Nat)
    (h1 : d.callId ≠ "") (h2 : d.callerId ≠ "") (h3 : d.receiverIds = r :: rs)
    (h4 : alGet st.connectedUsers d.callerId = some csk)
    (h5 : (getUserStatus st r).status ≠ "busy")
    (h6 : alGet st.connectedUsers r = some rsk) :
    alGet ((onCallInitiate st sock now d).1).userStatus r = some ⟨"ringing", some d.callId⟩
    ∧ ∃ call, alGet ((onCallInitiate st sock now d).1).activeCalls d.callId = some call
        ∧ r ∈ call.participants ∧ call.status = "initiated" := by
  unfold onCallInitiate
  rw [if_neg (by simp [h1, h2, h3])]
  rw [h4]
  simp only [h3, List.headD_cons]
  rw [if_neg h5, h6]
  refine ⟨alGet_alSet_self _ _ _, _, alGet_alSet_self _ _ _, ?_, rfl⟩
  simp

/-- C9 witness: the amended statement at the concrete registered state. -/
theorem C9_initiate_links_receiver_witness :
    alGet ((onCallInitiate stAB 1 0 dAB).1).userStatus "B" = some ⟨"ringing", some "c1"⟩
    ∧ ∃ call, alGet ((onCallInitiate stAB 1 0 dAB).1).activeCalls "c1" = some call
        ∧ "B" ∈ call.participants ∧ call.status = "initiated" :=
  C9_initiate_links_receiver stAB 1 0 dAB "B" [] 1 2 (by decide) (by decide) rfl
    (by decide) (by decide) (by decide)

/-- C10 (confirmed): for a socket bound to the event's user id, a
`user_status` event stores the supplied status string verbatim — any
string — with `current_call_id` reset to null, touches no other user's
presence and no call record, and emits nothing; when the user id is
missing (empty) or differs from the socket's bound user, the handler
changes nothing.  Since the state is universally quantified this also
covers a user currently in a live call. -/
theorem C10_user_status_verbatim (st : ServerState) (sock : Nat) (userId status : String) :
    ((userId ≠ "" ∧ alGet st.sockUser sock = some userId) →
       alGet ((onUserStatus st sock userId status).1).userStatus userId = some ⟨status, none⟩
       ∧ (∀ v, v ≠ userId →
            alGet ((onUserStatus st sock userId status).1).userStatus v = alGet st.userStatus v)
       ∧ ((onUserStatus st sock userId status).1).activeCalls = st.activeCalls
       ∧ (onUserStatus st sock userId status).2 = [])
    ∧ (¬(userId ≠ "" ∧ alGet st.sockUser sock = some userId) →
       onUserStatus st sock userId status = (st, [])) := by
  constructor
  · intro h
    unfold onUserStatus
    rw [if_pos h]
    exact ⟨alGet_alSet_self _ _ _,
           fun v hv => alGet_alSet_ne _ _ _ _ (Ne.symm hv), rfl, rfl⟩
  · intro h
    unfold onUserStatus
    rw [if_neg h]

/-- C10 witness: at `stInCallA` (A is in-call on live call c0) a
`user_status` event from A's socket with the non-enumerated status string
"weird" overwrites A's presence verbatim and clears the call id; the same
event from the unbound socket 2 changes nothing. -/
theorem C10_user_status_verbatim_witness :
    alGet ((onUserStatus stInCallA 1 "A" "weird").1).userStatus "A" = some ⟨"weird", none⟩
    ∧ onUserStatus stInCallA 2 "A" "weird" = (stInCallA, []) :=
  ⟨((C10_user_status_verbatim stInCallA 1 "A" "weird").1 ⟨by decide, by decide⟩).1,
   (C10_user_status_verbatim stInCallA 2 "A" "weird").2 (by decide)⟩

/-- C2 counterexample.  In `stActiveC` user B is `in-call` (c1 is
active), yet C's `call_initiate{c2,C,[B]}` is not rejected: no
`call_busy` is emitted, a record for c2 is created, and B's presence is
overwritten to `ringing(c2)` — the busy guard matches only the literal
status `busy`, not `in-call`. -/
theorem C2_counterexample :
    alGet stActiveC.userStatus "B" = some ⟨"in-call", some "c1"⟩
    ∧ ((onCallInitiate stActiveC 3 0 dCB).2.all (fun p => !(isCallBusy p.2))) = true
    ∧ (alGet ((onCallInitiate stActiveC 3 0 dCB).1).activeCalls "c2").isSome = true
    ∧ alGet ((onCallInitiate stActiveC 3 0 dCB).1).userStatus "B"
        = some ⟨"ringing", some "c2"⟩ := by
  refine ⟨rfl, rfl, rfl, rfl⟩

/-- C2 (amended): `call_initiate` short-circuits only when the receiver's
presence status is exactly `busy`; in that case the caller's socket
receives `call_busy{callId, receiverId}` and the state is completely
unchanged (no record created, receiver presence untouched).  A receiver
whose status is `in-call` does not trigger this branch. -/
theorem C2_busy_short_circuit (st : ServerState) (sock now : Nat) (d : CallInitData)
    (r : String) (rs : List String) (csk : Nat)
    (h1 : d.callId ≠ "") (h2 : d.callerId ≠ "") (h3 : d.receiverIds = r :: rs)
    (h4 : alGet st.connectedUsers d.callerId = some csk)
    (h5 : (getUserStatus st r).status = "busy") :
    onCallInitiate st sock now d = (st, [(csk, Evt.callBusy d.callId r)]) := by
  unfold onCallInitiate
  rw [if_neg (by simp [h1, h2, h3])]
  rw [h4]
  simp only [h3, List.headD_cons]
  rw [if_pos h5]

/-- C2 witness: in `stRinging` user A is `busy(c1)`, so B's
`call_initiate{c9,B,[A]}` yields exactly `call_busy` to B's socket with
no state change. -/
theorem C2_busy_short_circuit_witness :
    onCallInitiate stRinging 2 0 ⟨"c9", "B", ["A"], "audio", ""⟩
      = (stRinging, [(2, Evt.callBusy "c9" "A")]) :=
  C2_busy_short_circuit stRinging 2 0 ⟨"c9", "B", ["A"], "audio", ""⟩ "A" [] 2
    (by decide) (by decide) rfl (by decide) (by decide)

/-- C3 counterexample.  In `stActive` (c1 active between A and B), after
A's `call_end{c1,A}` the other participant B does receive `call_ended`,
but the call id c1 is still present in the registry (with B as sole
remaining participant) and B's presence is still `in-call(c1)` — the
registry is not emptied and presences are not both `available` as the
claim states. -/
theorem C3_counterexample :
    (onCallEnd stActive "c1" "A").2 = [(2, Evt.callEnded "c1" "A" "User ended the call")]
    ∧ (alGet ((onCallEnd stActive "c1" "A").1).activeCalls "c1").map Call.participants
        = some ["B"]
    ∧ alGet ((onCallEnd stActive "c1" "A").1).userStatus "B" = some ⟨"in-call", some "c1"⟩ := by
  refine ⟨rfl, rfl, rfl⟩

/-- C3 (amended): when a participant u of an active 1:1 call sends
`call_end`, the other participant receives `call_ended{u,"User ended the
call"}` and u's presence becomes `available`, but only u is removed from
the record: the call id remains in the registry with the other
participant, whose presence entry is untouched; the record is deleted
only when the last participant leaves. -/
theorem C3_call_end_keeps_peer (st : ServerState) (callId u v : String) (su sv : Nat)
    (call : Call)
    (h1 : alGet st.activeCalls callId = some call)
    (h2 : call.participants = [u, v])
    (h3 : call.participantSockets = [(u, su), (v, sv)])
    (h4 : u ≠ "") (h5 : u ≠ v) :
    (onCallEnd st callId u).2 = [(sv, Evt.callEnded callId u "User ended the call")]
    ∧ alGet ((onCallEnd st callId u).1).activeCalls callId
        = some {call with participants := [v], participantSockets := [(v, sv)]}
    ∧ alGet ((onCallEnd st callId u).1).userStatus u = some ⟨"available", none⟩
    ∧ alGet ((onCallEnd st callId u).1).userStatus v = alGet st.userStatus v := by
  unfold onCallEnd
  rw [if_neg h4, h1]
  simp only [h2, h3]
  simp [alDel, h5, Ne.symm h5, alGet_alSet_self, alGet_alSet_ne, List.isEmpty]

/-- C3 witness: the amended statement at the concrete active-call state. -/
theorem C3_call_end_keeps_peer_witness :
    (onCallEnd stActive "c1" "A").2 = [(2, Evt.callEnded "c1" "A" "User ended the call")]
    ∧ alGet ((onCallEnd stActive "c1" "A").1).activeCalls "c1"
        = some ⟨"c1", "A", ["B"], "audio", ["B"], [("B", 2)], "active", ""⟩
    ∧ alGet ((onCallEnd stActive "c1" "A").1).userStatus "A" = some ⟨"available", none⟩
    ∧ alGet ((onCallEnd stActive "c1" "A").1).userStatus "B" = alGet stActive.userStatus "B" :=
  C3_call_end_keeps_peer stActive "c1" "A" "B" 1 2
    ⟨"c1", "A", ["B"], "audio", ["A", "B"], [("A", 1), ("B", 2)], "active", ""⟩
    (by decide) rfl rfl (by decide) (by decide)

/-- C4 counterexample.  In `stOfferStall` the c1 record has both
participants' sockets bound, and the call state satisfies the stall guard
at `now = 20000`; the sweep emits only `call_timeout` to the caller — no
`call_ended` reaches any bound participant, unlike the no-answer timer
the claim equates it with. -/
theorem C4_counterexample :
    (alGet stOfferStall.activeCalls "c1").map (fun c => c.participantSockets)
      = some [("A", 1), ("B", 2)]
    ∧ (sweeperTick stOfferStall 20000).2 = [(1, Evt.callTimeout "c1" "No answer from receiver")]
    ∧ ((sweeperTick stOfferStall 20000).2.all (fun p => !(isCallEnded p.2))) = true := by
  refine ⟨rfl, rfl, rfl⟩

/-- C4 (amended): on a sweeper tick, a sole call state with status
`initiated`, positive `offer_attempts` and `now − last_offer_time > 10 s`
is swept: `call_timeout{reason:"No answer from receiver"}` is emitted to
the caller (when connected), the record and call state are deleted, and
both participants' presence is reset to `available`; no `call_ended` is
emitted to any participant. -/
theorem C4_sweeper_offer_stall (st : ServerState) (now : Nat) (c : String)
    (cs : CallState) (k : Nat)
    (h1 : st.callStates = [(c, cs)])
    (h2 : cs.status = "initiated") (h3 : cs.offerAttempts > 0)
    (h4 : now - cs.lastOfferTime > 10000)
    (h5 : alGet st.connectedUsers cs.callerId = some k) :
    (sweeperTick st now).2 = [(k, Evt.callTimeout c "No answer from receiver")]
    ∧ (sweeperTick st now).1.activeCalls = alDel st.activeCalls c
    ∧ (sweeperTick st now).1.callStates = []
    ∧ (sweeperTick st now).1.userStatus
        = alSet (alSet st.userStatus cs.callerId ⟨"available", none⟩) cs.receiverId
            ⟨"available", none⟩ := by
  unfold sweeperTick
  rw [h1]
  simp only [List.foldl_cons, List.foldl_nil]
  rw [if_pos ⟨h2, h3, h4⟩, h5]
  exact ⟨rfl, rfl, rfl, rfl⟩

/-- C4 witness: the amended statement at the concrete stalled state. -/
theorem C4_sweeper_offer_stall_witness :
    (sweeperTick stOfferStall 20000).2 = [(1, Evt.callTimeout "c1" "No answer from receiver")]
    ∧ (sweeperTick stOfferStall 20000).1.activeCalls = alDel stOfferStall.activeCalls "c1"
    ∧ (sweeperTick stOfferStall 20000).1.callStates = []
    ∧ (sweeperTick stOfferStall 20000).1.userStatus
        = alSet (alSet stOfferStall.userStatus "A" ⟨"available", none⟩) "B"
            ⟨"available", none⟩ :=
  C4_sweeper_offer_stall stOfferStall 20000 "c1"
    ⟨"initiated", "A", "B", 1, 0, [("A", []), ("B", [])]⟩ 1
    (by decide) rfl (by decide) (by decide) (by decide)

/-- C5 counterexample.  In `stActive`, a `webrtc_answer` with
`from == to == "A"` is forwarded to A's own socket, and an
`ice_candidate` with `from == to == "B"` is both forwarded to B's socket
and appended to the c1 ICE buffer for B — the `webrtc_answer` and
`ice_candidate` handlers have no loopback guard at all. -/
theorem C5_counterexample :
    (onWebrtcAnswer stActive 0 "c1" "A" "A" "s").2 = [(1, Evt.webrtcAnswer "c1" "A" "s")]
    ∧ (onIceCandidate stActive 5 "c1" "B" "B" "cand").2
        = [(2, Evt.iceCandidate "c1" "B" none "cand")]
    ∧ (alGet ((onIceCandidate stActive 5 "c1" "B" "B" "cand").1).callStates "c1").map
        CallState.iceCandidates
        = some [("A", []), ("B", [⟨"B", "cand", 5⟩])] := by
  refine ⟨rfl, rfl, rfl⟩

/-- C5 (amended): only the `webrtc_offer` handler has the loopback guard,
and only when the call record and call state both exist; such a loopback
offer is dropped after the offer bookkeeping is updated — nothing is
forwarded, nothing enqueued, the registry untouched.  (When the call is
unknown even a loopback offer is enqueued, and `webrtc_answer` /
`ice_candidate` route loopback events like any others.) -/
theorem C5_offer_loopback_guard (st : ServerState) (now : Nat) (callId fromU sdp : String)
    (call : Call) (cs : CallState)
    (h1 : alGet st.activeCalls callId = some call)
    (h2 : alGet st.callStates callId = some cs) :
    (onWebrtcOffer st now callId fromU fromU sdp).2 = []
    ∧ ((onWebrtcOffer st now callId fromU fromU sdp).1).pendingSignals = st.pendingSignals
    ∧ ((onWebrtcOffer st now callId fromU fromU sdp).1).activeCalls = st.activeCalls
    ∧ ((onWebrtcOffer st now callId fromU fromU sdp).1).callStates
        = alSet st.callStates callId
            {cs with offerAttempts := cs.offerAttempts + 1, lastOfferTime := now} := by
  unfold onWebrtcOffer
  rw [h1, h2]
  simp

/-- C5 witness: the amended statement at the concrete active state. -/
theorem C5_offer_loopback_guard_witness :
    (onWebrtcOffer stActive 7 "c1" "A" "A" "sdp").2 = []
    ∧ ((onWebrtcOffer stActive 7 "c1" "A" "A" "sdp").1).pendingSignals
        = stActive.pendingSignals
    ∧ ((onWebrtcOffer stActive 7 "c1" "A" "A" "sdp").1).activeCalls = stActive.activeCalls
    ∧ ((onWebrtcOffer stActive 7 "c1" "A" "A" "sdp").1).callStates
        = alSet stActive.callStates "c1"
            {(⟨"active", "A", "B", 0, 0, [("A", []), ("B", [])]⟩ : CallState) with
              offerAttempts := 0 + 1, lastOfferTime := 7} :=
  C5_offer_loopback_guard stActive 7 "c1" "A" "sdp"
    ⟨"c1", "A", ["B"], "audio", ["A", "B"], [("A", 1), ("B", 2)], "active", ""⟩
    ⟨"active", "A", "B", 0, 0, [("A", []), ("B", [])]⟩ (by decide) (by decide)

/-- C6 counterexample.  In `stActive` the c1 record is already `active`;
a repeated `call_accept{c1,B}` nevertheless re-emits `call_accepted` to
the caller A and `start_signaling` to both participants, not only to the
accepting sender. -/
theorem C6_counterexample :
    (alGet stActive.activeCalls "c1").map Call.status = some "active"
    ∧ (onCallAccept stActive 2 "c1" "B").2
        = [(1, Evt.callAccepted "c1" "B"), (1, Evt.startSignaling "c1"),
           (2, Evt.startSignaling "c1")] := by
  refine ⟨rfl, rfl⟩

/-- C6 (amended): `call_accept` on a record whose status is already
`active` is not a sender-only no-op: it re-runs the whole accept
transition — rebinds the receiver's directory socket into the record,
re-marks both presences `in-call`, and re-emits `call_accepted` to every
bound participant other than the receiver and `start_signaling` to every
bound participant, caller included. -/
theorem C6_accept_on_active_rerun (st : ServerState) (sock : Nat) (callId r c0 : String)
    (s0 s1 rs : Nat) (call : Call)
    (h1 : alGet st.activeCalls callId = some call)
    (h2 : call.status = "active")
    (h3 : call.callerId = c0)
    (h4 : call.participantSockets = [(c0, s0), (r, s1)])
    (h5 : alGet st.connectedUsers r = some rs)
    (h6 : r ∈ call.participants)
    (h7 : r ≠ c0) :
    (onCallAccept st sock callId r).2
      = [(s0, Evt.callAccepted callId r), (s0, Evt.startSignaling callId),
         (rs, Evt.startSignaling callId)]
    ∧ alGet ((onCallAccept st sock callId r).1).activeCalls callId
        = some {call with participantSockets := [(c0, s0), (r, rs)], status := "active"}
    ∧ alGet ((onCallAccept st sock callId r).1).userStatus c0
        = some ⟨"in-call", some callId⟩ := by
  unfold onCallAccept
  rw [h1, h5]
  dsimp only
  rw [if_pos h6]
  simp only [h3, h4]
  have hc0r : (c0 = r) = False := by simp [Ne.symm h7]
  simp [alSet, hc0r, Ne.symm h7, alGet_alSet_self, h3]

/-- C6 witness: the amended statement at the concrete active state. -/
theorem C6_accept_on_active_rerun_witness :
    (onCallAccept stActive 2 "c1" "B").2
      = [(1, Evt.callAccepted "c1" "B"), (1, Evt.startSignaling "c1"),
         (2, Evt.startSignaling "c1")]
    ∧ alGet ((onCallAccept stActive 2 "c1" "B").1).activeCalls "c1"
        = some ⟨"c1", "A", ["B"], "audio", ["A", "B"], [("A", 1), ("B", 2)], "active", ""⟩
    ∧ alGet ((onCallAccept stActive 2 "c1" "B").1).userStatus "A"
        = some ⟨"in-call", some "c1"⟩ :=
  C6_accept_on_active_rerun stActive 2 "c1" "B" "A" 1 2 2
    ⟨"c1", "A", ["B"], "audio", ["A", "B"], [("A", 1), ("B", 2)], "active", ""⟩
    (by decide) rfl rfl rfl (by decide) (by decide) (by decide)

/-- C8 counterexample.  Along the trace `readyTrace` (A calls B, B sends
`user_ready` while the call is still `initiated` and never accepts),
caller A's socket receives `start_signaling` for c1, yet no
`call_accepted` is emitted to anyone anywhere in the whole execution —
the claimed ordering fails in a reachable execution that uses
`user_ready`. -/
theorem C8_counterexample :
    ((runAcc initState readyTrace).2.any
        (fun p => p.1 == 1 && isStartSignaling p.2)) = true
    ∧ ((runAcc initState readyTrace).2.all (fun p => !(isCallAccepted p.2))) = true := by
  refine ⟨rfl, rfl⟩

/-- C8 (amended): within the `call_accept` handler itself the emission
sequence is all `call_accepted` events followed by all `start_signaling`
events, so the caller observes `call_accepted` strictly before the
`start_signaling` produced by `call_accept`; the ordering does not extend
to executions in which `user_ready` emits `start_signaling` first. -/
theorem C8_accept_emission_order (st : ServerState) (sock : Nat) (callId r : String)
    (call : Call) (rs : Nat)
    (h1 : alGet st.activeCalls callId = some call)
    (h2 : alGet st.connectedUsers r = some rs)
    (h3 : r ∈ call.participants) :
    ∃ pre post, (onCallAccept st sock callId r).2 = pre ++ post
      ∧ (∀ p ∈ pre, p.2 = Evt.callAccepted callId r)
      ∧ (∀ p ∈ post, p.2 = Evt.startSignaling callId) := by
  unfold onCallAccept
  rw [h1, h2]
  dsimp only
  rw [if_pos h3]
  refine ⟨_, _, rfl, ?_, ?_⟩
  · intro p hp
    simp only [List.mem_map] at hp
    obtain ⟨a, _, ha⟩ := hp
    rw [← ha]
  · intro p hp
    simp only [List.mem_map] at hp
    obtain ⟨a, _, ha⟩ := hp
    rw [← ha]

/-- C8 witness: the amended statement at the concrete ringing state. -/
theorem C8_accept_emission_order_witness :
    ∃ pre post, (onCallAccept stRinging 2 "c1" "B").2 = pre ++ post
      ∧ (∀ p ∈ pre, p.2 = Evt.callAccepted "c1" "B")
      ∧ (∀ p ∈ post, p.2 = Evt.startSignaling "c1") :=
  C8_accept_emission_order stRinging 2 "c1" "B"
    ⟨"c1", "A", ["B"], "audio", ["A", "B"], [("A", 1)], "initiated", ""⟩ 2
    (by decide) (by decide) (by decide)
